import Mathlib

/-
Shallow embedding of `src/rllib/algorithms/ppo/ppo_catalog.py` (PPOCatalog):
the data model (gym spaces, model config dictionary, the three sub-configs),
the constructor with its assertion/key-lookup failure modes, and the four
builder methods. External collaborators that the repository slice does not
contain (the generic `Catalog` superclass, the config builder objects, the
gym space classes) are modelled from the spec and marked as such.
-/

namespace RLlib

/-- Modelled from the spec: gym space descriptors. The source uses
`gym.spaces.Box` (real-valued, with a shape tuple), `gym.spaces.Discrete`
(categorical with `n` categories), and other space types exist (here
represented by `multiBinary`) that PPOCatalog rejects. -/
inductive GymSpace where
  | box (shape : List Nat)
  | discrete (n : Nat)
  | multiBinary (n : Nat)
deriving DecidableEq, Repr

/-- Mirrors Python `isinstance(s, gym.spaces.Discrete)`. -/
def GymSpace.isDiscrete : GymSpace → Bool
  | GymSpace.discrete _ => true
  | _ => false

/-- Mirrors Python `isinstance(s, gym.spaces.Box)`. -/
def GymSpace.isBox : GymSpace → Bool
  | GymSpace.box _ => true
  | _ => false

/-- The model config dictionary, restricted to the keys the source reads:
`free_log_std`, `vf_share_layers`, `post_fcnet_hiddens`,
`post_fcnet_activation`. An `Option` field is `none` when the key is absent
from the dictionary (Python `dict.get` then returns `None`, and `dict[k]`
raises `KeyError`). Values are modelled by their truthiness (booleans), the
layer-width list, and the activation name. -/
structure ModelConfigDict where
  free_log_std : Option Bool
  vf_share_layers : Option Bool
  post_fcnet_hiddens : Option (List Nat)
  post_fcnet_activation : Option String
deriving DecidableEq, Repr

/-- Modelled from the spec: the base encoder configuration produced by the
generic `Catalog` superclass (not part of the repository slice). It carries
a declared input and output dimension; `input_dim` is the field the source
later overwrites. -/
structure EncoderConfig where
  input_dim : Nat
  output_dim : Nat
deriving DecidableEq, Repr

/-- Modelled from the spec: `ActorCriticEncoderConfig` wraps the base
encoder config plus a `shared` flag. -/
structure ActorCriticEncoderConfig where
  base_encoder_config : EncoderConfig
  shared : Bool
deriving DecidableEq, Repr

/-- Modelled from the spec: `MLPHeadConfig` with the five fields the source
passes to it. -/
structure MLPHeadConfig where
  input_dim : Nat
  hidden_layer_dims : List Nat
  hidden_layer_activation : String
  output_activation : String
  output_dim : Nat
deriving DecidableEq, Repr

/-- The failure modes of the source: Python `AssertionError` (with its
message), `KeyError` (with the missing key), `IndexError` (indexing
`shape[0]` of an empty shape tuple), and `NotImplementedError` (with its
message). -/
inductive PPOError where
  | assertionError (msg : String)
  | keyError (key : String)
  | indexError
  | notImplementedError (msg : String)
deriving DecidableEq, Repr

/-- The state of a constructed PPOCatalog: the constructor arguments kept by
the superclass plus the three sub-configs assembled in `__init__`. -/
structure PPOCatalog where
  observation_space : GymSpace
  action_space : GymSpace
  model_config_dict : ModelConfigDict
  encoder_config : EncoderConfig
  actor_critic_encoder_config : ActorCriticEncoderConfig
  pi_head_config : MLPHeadConfig
  vf_head_config : MLPHeadConfig
deriving DecidableEq, Repr

/-- Mirrors the source computation of `pi_output_dim` (lines 69-72, repeated
at lines 96-99): `action_space.n` for a Discrete space, otherwise
`action_space.shape[0] * 2`, which raises IndexError on an empty shape. The
non-Discrete non-Box case is unreachable in `PPOCatalog.init` because the
isinstance assertion has already rejected it. -/
def piOutputDim : GymSpace → Except PPOError Nat
  | GymSpace.discrete n => Except.ok n
  | GymSpace.box shape =>
      match shape with
      | [] => Except.error PPOError.indexError
      | k :: _ => Except.ok (k * 2)
  | _ => Except.error PPOError.indexError

/-- `PPOCatalog.__init__` from the source, step by step. The generic
superclass `__init__` is modelled (from the spec) as supplying the base
encoder config `base` and consuming no keys; everything after it follows
the source order: the `free_log_std` assertion, the Box / 1-D observation
assertions, the Discrete-or-Box action assertion, the
`ActorCriticEncoderConfig` with `shared = model_config_dict["vf_share_layers"]`,
`pi_output_dim`, the two `MLPHeadConfig`s, and finally the dimension patch
that overwrites `encoder_config.input_dim`, `pi_head_config.input_dim`,
`pi_head_config.output_dim` and `vf_head_config.output_dim`. In the source
`actor_critic_encoder_config.base_encoder_config` is the same object as
`self.encoder_config`, so the `input_dim` patch is visible through it; the
returned structure reflects that aliasing. -/
def PPOCatalog.init (observation_space action_space : GymSpace)
    (model_config_dict : ModelConfigDict) (base : EncoderConfig) :
    Except PPOError PPOCatalog :=
  if model_config_dict.free_log_std.getD false then
    Except.error (PPOError.assertionError "free_log_std not supported yet.")
  else
    match observation_space with
    | GymSpace.box [obs_dim] =>
      if action_space.isDiscrete || action_space.isBox then
        match model_config_dict.vf_share_layers with
        | none => Except.error (PPOError.keyError "vf_share_layers")
        | some vf_share_layers =>
          match piOutputDim action_space with
          | Except.error e => Except.error e
          | Except.ok pi_output_dim =>
            match model_config_dict.post_fcnet_hiddens with
            | none => Except.error (PPOError.keyError "post_fcnet_hiddens")
            | some post_fcnet_hiddens =>
              match model_config_dict.post_fcnet_activation with
              | none => Except.error (PPOError.keyError "post_fcnet_activation")
              | some post_fcnet_activation =>
                let pi_head_config_first : MLPHeadConfig :=
                  { input_dim := base.output_dim,
                    hidden_layer_dims := post_fcnet_hiddens,
                    hidden_layer_activation := post_fcnet_activation,
                    output_activation := "linear",
                    output_dim := pi_output_dim }
                let vf_head_config_first : MLPHeadConfig :=
                  { input_dim := base.output_dim,
                    hidden_layer_dims := post_fcnet_hiddens,
                    hidden_layer_activation := post_fcnet_activation,
                    output_activation := "linear",
                    output_dim := 1 }
                match piOutputDim action_space with
                | Except.error e => Except.error e
                | Except.ok pi_output_dim_patched =>
                  let encoder_config : EncoderConfig :=
                    { base with input_dim := obs_dim }
                  Except.ok
                    { observation_space := observation_space,
                      action_space := action_space,
                      model_config_dict := model_config_dict,
                      encoder_config := encoder_config,
                      actor_critic_encoder_config :=
                        { base_encoder_config := encoder_config,
                          shared := vf_share_layers },
                      pi_head_config :=
                        { pi_head_config_first with
                          input_dim := encoder_config.output_dim,
                          output_dim := pi_output_dim_patched },
                      vf_head_config :=
                        { vf_head_config_first with output_dim := 1 } }
      else
        Except.error (PPOError.assertionError
          "This simple PPO Module only supports Discrete and Box action spaces.")
    | GymSpace.box _ =>
      Except.error (PPOError.assertionError
        "This simple PPO Module only supports 1D observation spaces.")
    | _ =>
      Except.error (PPOError.assertionError
        "This simple PPO Module only supports Box observation space.")

/-- Modelled from the spec: the opaque framework-native module handle
returned by the sub-config builders. It records which config built it and
for which framework, and nothing else. -/
inductive BuiltModule where
  | actorCriticEncoder (config : ActorCriticEncoderConfig) (framework : String)
  | mlpHead (config : MLPHeadConfig) (framework : String)
deriving DecidableEq, Repr

/-- Modelled from the spec: `ActorCriticEncoderConfig.build(framework)`
returns a fresh framework-native module; it does not cache and does not
mutate the config. -/
def ActorCriticEncoderConfig.build (c : ActorCriticEncoderConfig)
    (framework : String) : BuiltModule :=
  BuiltModule.actorCriticEncoder c framework

/-- Modelled from the spec: `MLPHeadConfig.build(framework)` returns a fresh
framework-native module; it does not cache and does not mutate the config. -/
def MLPHeadConfig.build (c : MLPHeadConfig) (framework : String) : BuiltModule :=
  BuiltModule.mlpHead c framework

/-- `PPOCatalog.build_actor_critic_encoder` from the source: delegates to the
actor-critic encoder config builder. The pair returns the post-call catalog
state so that frame effects are expressible. -/
def PPOCatalog.build_actor_critic_encoder (c : PPOCatalog) (framework : String) :
    Except PPOError BuiltModule × PPOCatalog :=
  (Except.ok (c.actor_critic_encoder_config.build framework), c)

/-- `PPOCatalog.build_encoder` from the source: always raises
NotImplementedError. -/
def PPOCatalog.build_encoder (c : PPOCatalog) (framework : String) :
    Except PPOError BuiltModule × PPOCatalog :=
  (Except.error (PPOError.notImplementedError
    "Use PPOCatalog.build_actor_critic_encoder() instead."), c)

/-- `PPOCatalog.build_pi_head` from the source: delegates to the pi head
config builder. -/
def PPOCatalog.build_pi_head (c : PPOCatalog) (framework : String) :
    Except PPOError BuiltModule × PPOCatalog :=
  (Except.ok (c.pi_head_config.build framework), c)

/-- `PPOCatalog.build_vf_head` from the source: delegates to the value head
config builder. -/
def PPOCatalog.build_vf_head (c : PPOCatalog) (framework : String) :
    Except PPOError BuiltModule × PPOCatalog :=
  (Except.ok (c.vf_head_config.build framework), c)

/-- Single-pass construction following the spec words: it takes the resolved
dimensions (encoder input dim from the observation space, pi head output dim
from the action space; the vf head output dim is the constant 1) as
parameters from the start and writes every dimension field exactly once; the
config-dictionary key lookups are kept in the source order. To be compared
against the two-pass `PPOCatalog.init`. -/
def PPOCatalog.singlePass (observation_space action_space : GymSpace)
    (model_config_dict : ModelConfigDict) (base : EncoderConfig)
    (encoder_input_dim pi_output_dim : Nat) : Except PPOError PPOCatalog :=
  match model_config_dict.vf_share_layers with
  | none => Except.error (PPOError.keyError "vf_share_layers")
  | some vf_share_layers =>
    match model_config_dict.post_fcnet_hiddens with
    | none => Except.error (PPOError.keyError "post_fcnet_hiddens")
    | some post_fcnet_hiddens =>
      match model_config_dict.post_fcnet_activation with
      | none => Except.error (PPOError.keyError "post_fcnet_activation")
      | some post_fcnet_activation =>
        let encoder_config : EncoderConfig :=
          { base with input_dim := encoder_input_dim }
        Except.ok
          { observation_space := observation_space,
            action_space := action_space,
            model_config_dict := model_config_dict,
            encoder_config := encoder_config,
            actor_critic_encoder_config :=
              { base_encoder_config := encoder_config,
                shared := vf_share_layers },
            pi_head_config :=
              { input_dim := encoder_config.output_dim,
                hidden_layer_dims := post_fcnet_hiddens,
                hidden_layer_activation := post_fcnet_activation,
                output_activation := "linear",
                output_dim := pi_output_dim },
            vf_head_config :=
              { input_dim := encoder_config.output_dim,
                hidden_layer_dims := post_fcnet_hiddens,
                hidden_layer_activation := post_fcnet_activation,
                output_activation := "linear",
                output_dim := 1 } }

/-- Recognizes the unsupported-space assertion errors of the constructor:
wrong observation space type, wrong observation rank, or unsupported action
space type. -/
def PPOError.isUnsupportedSpaceError : PPOError → Bool
  | PPOError.assertionError msg =>
      msg = "This simple PPO Module only supports Box observation space." ||
      msg = "This simple PPO Module only supports 1D observation spaces." ||
      msg = "This simple PPO Module only supports Discrete and Box action spaces."
  | _ => false

/-- A concrete model config dictionary with all mandatory keys present and
`free_log_std` absent. -/
def cfgEx : ModelConfigDict :=
  { free_log_std := none, vf_share_layers := some true,
    post_fcnet_hiddens := some [32], post_fcnet_activation := some "relu" }

/-- `cfgEx` with `free_log_std` present and truthy. -/
def cfgExFree : ModelConfigDict := { cfgEx with free_log_std := some true }

/-- `cfgEx` with the `vf_share_layers` key absent. -/
def cfgExNoVf : ModelConfigDict := { cfgEx with vf_share_layers := none }

/-- A concrete base encoder config, as the generic superclass would supply. -/
def baseEx : EncoderConfig := { input_dim := 11, output_dim := 256 }

/-- The catalog that `PPOCatalog.init` produces for a 4-dimensional Box
observation space, a Discrete(3) action space, `cfgEx` and `baseEx`. -/
def catEx : PPOCatalog :=
  { observation_space := GymSpace.box [4],
    action_space := GymSpace.discrete 3,
    model_config_dict := cfgEx,
    encoder_config := { input_dim := 4, output_dim := 256 },
    actor_critic_encoder_config :=
      { base_encoder_config := { input_dim := 4, output_dim := 256 },
        shared := true },
    pi_head_config :=
      { input_dim := 256, hidden_layer_dims := [32],
        hidden_layer_activation := "relu", output_activation := "linear",
        output_dim := 3 },
    vf_head_config :=
      { input_dim := 256, hidden_layer_dims := [32],
        hidden_layer_activation := "relu", output_activation := "linear",
        output_dim := 1 } }

/-- Inversion helper: whenever `PPOCatalog.init` succeeds, the observation
space was a 1-D Box, `free_log_std` was falsy, the three mandatory keys were
present, `pi_output_dim` resolved, and the resulting catalog is the explicit
structure below. -/
theorem init_ok_elim (obs act : GymSpace) (cfg : ModelConfigDict)
    (base : EncoderConfig) (c : PPOCatalog)
    (h : PPOCatalog.init obs act cfg base = Except.ok c) :
    ∃ d vf hid actv p,
      obs = GymSpace.box [d] ∧
      cfg.free_log_std.getD false = false ∧
      cfg.vf_share_layers = some vf ∧
      cfg.post_fcnet_hiddens = some hid ∧
      cfg.post_fcnet_activation = some actv ∧
      piOutputDim act = Except.ok p ∧
      c = { observation_space := obs, action_space := act,
            model_config_dict := cfg,
            encoder_config := { base with input_dim := d },
            actor_critic_encoder_config :=
              { base_encoder_config := { base with input_dim := d },
                shared := vf },
            pi_head_config :=
              { input_dim := base.output_dim, hidden_layer_dims := hid,
                hidden_layer_activation := actv,
                output_activation := "linear", output_dim := p },
            vf_head_config :=
              { input_dim := base.output_dim, hidden_layer_dims := hid,
                hidden_layer_activation := actv,
                output_activation := "linear", output_dim := 1 } } := by
  unfold PPOCatalog.init at h
  split at h
  · exact absurd h (by simp)
  next hfree =>
    split at h
    next obs_dim =>
      split at h
      next hact =>
        split at h
        · exact absurd h (by simp)
        next vf hvf =>
          split at h
          · exact absurd h (by simp)
          next p1 hp1 =>
            split at h
            · exact absurd h (by simp)
            next hid hhid =>
              split at h
              · exact absurd h (by simp)
              next actv hactv =>
                split at h
                · exact absurd h (by simp)
                next p2 hp2 =>
                  refine ⟨obs_dim, vf, hid, actv, p2, rfl, by simpa using hfree,
                    hvf, hhid, hactv, hp1.trans hp2, ?_⟩
                  injection h with h
                  exact h.symm
      · exact absurd h (by simp)
    · exact absurd h (by simp)
    · exact absurd h (by simp)

/-- Claim C1: for every validly constructed PPOCatalog, the policy head
config output dimension equals the number of categories `n` when the action
space is categorical (Discrete), and equals `2 * k` when the action space is
a real-valued (Box) space of dimension `k`. -/
theorem pi_head_output_dim (obs act : GymSpace) (cfg : ModelConfigDict)
    (base : EncoderConfig) (c : PPOCatalog)
    (h : PPOCatalog.init obs act cfg base = Except.ok c) :
    (∀ n, act = GymSpace.discrete n → c.pi_head_config.output_dim = n) ∧
    (∀ k, act = GymSpace.box [k] → c.pi_head_config.output_dim = 2 * k) := by
  obtain ⟨d, vf, hid, actv, p, -, -, -, -, -, hp, hc⟩ :=
    init_ok_elim obs act cfg base c h
  subst hc
  constructor
  · intro n hn
    subst hn
    simp only [piOutputDim, Except.ok.injEq] at hp
    show p = n
    omega
  · intro k hk
    subst hk
    simp only [piOutputDim, Except.ok.injEq] at hp
    show p = 2 * k
    omega

/-- Claim C1 witness: Discrete(3) action space gives pi head output dim 3. -/
theorem pi_head_output_dim_witness : catEx.pi_head_config.output_dim = 3 :=
  (pi_head_output_dim (GymSpace.box [4]) (GymSpace.discrete 3) cfgEx baseEx
    catEx rfl).1 3 rfl

/-- Claim C2: for every validly constructed PPOCatalog, regardless of the
observation space, action space and model config dictionary, the value head
config output dimension equals 1. -/
theorem vf_head_output_dim_one (obs act : GymSpace) (cfg : ModelConfigDict)
    (base : EncoderConfig) (c : PPOCatalog)
    (h : PPOCatalog.init obs act cfg base = Except.ok c) :
    c.vf_head_config.output_dim = 1 := by
  obtain ⟨d, vf, hid, actv, p, -, -, -, -, -, -, hc⟩ :=
    init_ok_elim obs act cfg base c h
  subst hc
  rfl

/-- Claim C2 witness: the example catalog has value head output dim 1. -/
theorem vf_head_output_dim_one_witness : catEx.vf_head_config.output_dim = 1 :=
  vf_head_output_dim_one (GymSpace.box [4]) (GymSpace.discrete 3) cfgEx baseEx
    catEx rfl

/-- Claim C3: for every valid 1-D real-valued observation space of dimension
`d`, after construction the encoder config input dimension equals `d`. -/
theorem encoder_input_dim_eq_obs_dim (d : Nat) (act : GymSpace)
    (cfg : ModelConfigDict) (base : EncoderConfig) (c : PPOCatalog)
    (h : PPOCatalog.init (GymSpace.box [d]) act cfg base = Except.ok c) :
    c.encoder_config.input_dim = d := by
  obtain ⟨d2, vf, hid, actv, p, hobs, -, -, -, -, -, hc⟩ :=
    init_ok_elim (GymSpace.box [d]) act cfg base c h
  simp only [GymSpace.box.injEq, List.cons.injEq, and_true] at hobs
  subst hobs
  subst hc
  rfl

/-- Claim C3 witness: a 4-dimensional Box observation space yields encoder
input dim 4. -/
theorem encoder_input_dim_eq_obs_dim_witness : catEx.encoder_config.input_dim = 4 :=
  encoder_input_dim_eq_obs_dim 4 (GymSpace.discrete 3) cfgEx baseEx catEx rfl

/-- Claim C4: whenever the model config dictionary maps `free_log_std` to a
truthy value, construction fails with the unsupported-feature assertion
error, regardless of the other inputs. -/
theorem free_log_std_rejected (obs act : GymSpace) (cfg : ModelConfigDict)
    (base : EncoderConfig) (hfree : cfg.free_log_std = some true) :
    PPOCatalog.init obs act cfg base =
      Except.error (PPOError.assertionError "free_log_std not supported yet.") := by
  unfold PPOCatalog.init
  simp [hfree]

/-- Claim C4 witness: a config with `free_log_std = True` is rejected even
with otherwise valid spaces. -/
theorem free_log_std_rejected_witness :
    PPOCatalog.init (GymSpace.box [4]) (GymSpace.discrete 3) cfgExFree baseEx =
      Except.error (PPOError.assertionError "free_log_std not supported yet.") :=
  free_log_std_rejected (GymSpace.box [4]) (GymSpace.discrete 3) cfgExFree
    baseEx rfl

/-- Claim C5: every observation space that is not a 1-D Box makes
construction fail with an unsupported-space assertion error, and every
action space that is neither Discrete nor Box (with a valid observation
space) makes construction fail with the action-space assertion error. -/
theorem unsupported_space_rejected (obs act : GymSpace) (cfg : ModelConfigDict)
    (base : EncoderConfig) (hfree : cfg.free_log_std.getD false = false) :
    ((∀ d, obs ≠ GymSpace.box [d]) →
      ∃ e, PPOCatalog.init obs act cfg base = Except.error e ∧
        e.isUnsupportedSpaceError = true) ∧
    (∀ d, obs = GymSpace.box [d] → act.isDiscrete = false → act.isBox = false →
      PPOCatalog.init obs act cfg base =
        Except.error (PPOError.assertionError
          "This simple PPO Module only supports Discrete and Box action spaces.")) := by
  constructor
  · intro hobs
    rcases obs with shape | n | n
    · rcases shape with _ | ⟨k, rest⟩
      · exact ⟨PPOError.assertionError
          "This simple PPO Module only supports 1D observation spaces.",
          by simp [PPOCatalog.init, hfree], rfl⟩
      · rcases rest with _ | ⟨k2, rest2⟩
        · exact absurd rfl (hobs k)
        · exact ⟨PPOError.assertionError
            "This simple PPO Module only supports 1D observation spaces.",
            by simp [PPOCatalog.init, hfree], rfl⟩
    · exact ⟨PPOError.assertionError
        "This simple PPO Module only supports Box observation space.",
        by simp [PPOCatalog.init, hfree], rfl⟩
    · exact ⟨PPOError.assertionError
        "This simple PPO Module only supports Box observation space.",
        by simp [PPOCatalog.init, hfree], rfl⟩
  · intro d hobs hd hb
    subst hobs
    simp [PPOCatalog.init, hfree, hd, hb]

/-- Claim C5 witness: a 2-D image-shaped observation space is rejected with
an unsupported-space error, and a MultiBinary action space is rejected with
the action-space error. -/
theorem unsupported_space_rejected_witness :
    (∃ e, PPOCatalog.init (GymSpace.box [2, 2]) (GymSpace.discrete 3) cfgEx
        baseEx = Except.error e ∧ e.isUnsupportedSpaceError = true) ∧
    PPOCatalog.init (GymSpace.box [4]) (GymSpace.multiBinary 2) cfgEx baseEx =
      Except.error (PPOError.assertionError
        "This simple PPO Module only supports Discrete and Box action spaces.") :=
  ⟨(unsupported_space_rejected (GymSpace.box [2, 2]) (GymSpace.discrete 3)
      cfgEx baseEx rfl).1 (by intro d hd; simp at hd),
   (unsupported_space_rejected (GymSpace.box [4]) (GymSpace.multiBinary 2)
      cfgEx baseEx rfl).2 4 rfl rfl rfl⟩

/-- Claim C6: on every PPOCatalog and every framework argument,
`build_encoder` returns the NotImplementedError and leaves the catalog state
unchanged. -/
theorem build_encoder_always_raises (c : PPOCatalog) (framework : String) :
    c.build_encoder framework =
      (Except.error (PPOError.notImplementedError
        "Use PPOCatalog.build_actor_critic_encoder() instead."), c) := rfl

/-- Claim C7: the two-pass construction `PPOCatalog.init` produces exactly
the same result as the single-pass construction that takes the resolved
encoder input dimension and pi head output dimension as parameters from the
start. -/
theorem two_pass_eq_single_pass (d : Nat) (act : GymSpace)
    (cfg : ModelConfigDict) (base : EncoderConfig) (p : Nat)
    (hfree : cfg.free_log_std.getD false = false)
    (hp : piOutputDim act = Except.ok p) :
    PPOCatalog.init (GymSpace.box [d]) act cfg base =
      PPOCatalog.singlePass (GymSpace.box [d]) act cfg base d p := by
  rcases cfg with ⟨fls, vsl, pfh, pfa⟩
  rcases act with shape | n | n
  · rcases shape with _ | ⟨k, rest⟩
    · simp [piOutputDim] at hp
    · simp only [piOutputDim, Except.ok.injEq] at hp
      subst hp
      unfold PPOCatalog.init PPOCatalog.singlePass
      cases vsl <;> cases pfh <;> cases pfa <;>
        simp [hfree, GymSpace.isDiscrete, GymSpace.isBox, piOutputDim]
  · simp only [piOutputDim, Except.ok.injEq] at hp
    subst hp
    unfold PPOCatalog.init PPOCatalog.singlePass
    cases vsl <;> cases pfh <;> cases pfa <;>
      simp [hfree, GymSpace.isDiscrete, GymSpace.isBox, piOutputDim]
  · simp [piOutputDim] at hp

/-- Claim C7 witness: the two constructions agree on the concrete example
inputs. -/
theorem two_pass_eq_single_pass_witness :
    PPOCatalog.init (GymSpace.box [4]) (GymSpace.discrete 3) cfgEx baseEx =
      PPOCatalog.singlePass (GymSpace.box [4]) (GymSpace.discrete 3) cfgEx
        baseEx 4 3 :=
  two_pass_eq_single_pass 4 (GymSpace.discrete 3) cfgEx baseEx 3 rfl rfl

/-- Claim C8: on every PPOCatalog and every framework argument, each of
`build_actor_critic_encoder`, `build_pi_head` and `build_vf_head` leaves the
catalog state (hence every config field) unchanged. -/
theorem build_methods_leave_state_unchanged (c : PPOCatalog)
    (framework : String) :
    (c.build_actor_critic_encoder framework).2 = c ∧
    (c.build_pi_head framework).2 = c ∧
    (c.build_vf_head framework).2 = c :=
  ⟨rfl, rfl, rfl⟩

/-- Claim C9: for every validly constructed PPOCatalog, the actor-critic
encoder config `shared` flag is the value stored under `vf_share_layers` in
the model config dictionary, and its base encoder config is the catalog's
own encoder config. -/
theorem actor_critic_encoder_config_fields (obs act : GymSpace)
    (cfg : ModelConfigDict) (base : EncoderConfig) (c : PPOCatalog)
    (h : PPOCatalog.init obs act cfg base = Except.ok c) :
    c.model_config_dict.vf_share_layers =
      some c.actor_critic_encoder_config.shared ∧
    c.actor_critic_encoder_config.base_encoder_config = c.encoder_config := by
  obtain ⟨d, vf, hid, actv, p, -, -, hvf, -, -, -, hc⟩ :=
    init_ok_elim obs act cfg base c h
  subst hc
  exact ⟨hvf, rfl⟩

/-- Claim C9 witness: the example catalog copies `vf_share_layers = True`
into `shared` and aliases the patched encoder config. -/
theorem actor_critic_encoder_config_fields_witness :
    catEx.model_config_dict.vf_share_layers =
      some catEx.actor_critic_encoder_config.shared ∧
    catEx.actor_critic_encoder_config.base_encoder_config =
      catEx.encoder_config :=
  actor_critic_encoder_config_fields (GymSpace.box [4]) (GymSpace.discrete 3)
    cfgEx baseEx catEx rfl

/-- Claim C10: with valid spaces, a missing `vf_share_layers`,
`post_fcnet_hiddens` or `post_fcnet_activation` key makes construction fail
with the corresponding KeyError (not a descriptive assertion error), while
an absent `free_log_std` key is tolerated: with the three mandatory keys
present, construction succeeds. -/
theorem missing_keys_raise_key_errors (obs act : GymSpace)
    (cfg : ModelConfigDict) (base : EncoderConfig) (d p : Nat)
    (hobs : obs = GymSpace.box [d]) (hp : piOutputDim act = Except.ok p)
    (hfree : cfg.free_log_std.getD false = false) :
    (cfg.vf_share_layers = none →
      PPOCatalog.init obs act cfg base =
        Except.error (PPOError.keyError "vf_share_layers")) ∧
    (cfg.post_fcnet_hiddens = none → ∀ b, cfg.vf_share_layers = some b →
      PPOCatalog.init obs act cfg base =
        Except.error (PPOError.keyError "post_fcnet_hiddens")) ∧
    (cfg.post_fcnet_activation = none → ∀ b hid,
      cfg.vf_share_layers = some b → cfg.post_fcnet_hiddens = some hid →
      PPOCatalog.init obs act cfg base =
        Except.error (PPOError.keyError "post_fcnet_activation")) ∧
    (cfg.free_log_std = none → ∀ b hid actv,
      cfg.vf_share_layers = some b → cfg.post_fcnet_hiddens = some hid →
      cfg.post_fcnet_activation = some actv →
      (PPOCatalog.init obs act cfg base).isOk = true) := by
  subst hobs
  have hact : (GymSpace.isDiscrete act || GymSpace.isBox act) = true := by
    rcases act with shape | n | n
    · simp [GymSpace.isBox]
    · simp [GymSpace.isDiscrete]
    · simp [piOutputDim] at hp
  refine ⟨?_, ?_, ?_, ?_⟩
  · intro hvs
    simp [PPOCatalog.init, hfree, hact, hvs]
  · intro hph b hvs
    simp [PPOCatalog.init, hfree, hact, hvs, hph, hp]
  · intro hpa b hid hvs hph
    simp [PPOCatalog.init, hfree, hact, hvs, hph, hpa, hp]
  · intro hfls b hid actv hvs hph hpa
    simp [PPOCatalog.init, hfree, hact, hvs, hph, hpa, hp, Except.isOk,
      Except.toBool]

/-- Claim C10 witness: a config without `vf_share_layers` yields the
KeyError, and a config without `free_log_std` but with all mandatory keys
constructs successfully. -/
theorem missing_keys_raise_key_errors_witness :
    PPOCatalog.init (GymSpace.box [4]) (GymSpace.discrete 3) cfgExNoVf baseEx =
      Except.error (PPOError.keyError "vf_share_layers") ∧
    (PPOCatalog.init (GymSpace.box [4]) (GymSpace.discrete 3) cfgEx
      baseEx).isOk = true :=
  ⟨(missing_keys_raise_key_errors (GymSpace.box [4]) (GymSpace.discrete 3)
      cfgExNoVf baseEx 4 3 rfl rfl rfl).1 rfl,
   (missing_keys_raise_key_errors (GymSpace.box [4]) (GymSpace.discrete 3)
      cfgEx baseEx 4 3 rfl rfl rfl).2.2.2 rfl true [32] "relu" rfl rfl rfl⟩

end RLlib
